import Mathlib

/-!
Verification development for the ACsleuth repository (src/sleuth/main.py and
src/sleuth/model/generator.py).

Shallow embedding conventions:
* tensors of floats are modelled as lists of rationals (`Vec`) and lists of
  rows (`Mat`);
* Python exceptions are modelled with `Except PyErr`;
* a Python object attribute that may not have been assigned yet is modelled
  with `Attr` (reading an `unset` attribute is an `AttributeError`);
* network layers whose weights live outside the modelled control flow are
  abstracted as function parameters; structural facts (layer lists, flags,
  dimensions and the final rectification) are embedded concretely from the
  source.
-/

abbrev Vec := List ℚ
abbrev Mat := List Vec

/-- Python-level errors that the embedded code can raise. -/
inductive PyErr where
  /-- e.g. accessing a missing attribute such as `self.genes`, or
  `tuple.detach()`. -/
  | attributeError
  /-- e.g. applying a network that expects a tensor to a tuple. -/
  | typeError
  /-- pandas raises this when comparing indexes of different lengths. -/
  | valueError
  /-- `RuntimeError('Target and reference data have different genes.')` -/
  | runtimeDiffGenes
  /-- `RuntimeError('Please train the model first.')` -/
  | runtimeTrainFirst
  /-- `torch.cat` of an empty list of tensors. -/
  | runtimeCatEmpty
deriving DecidableEq, Repr

/-- A Python instance attribute: either never assigned, or set to a value. -/
inductive Attr (α : Type) where
  | unset
  | set (a : α)
deriving DecidableEq, Repr

/-- Reading an attribute: `AttributeError` when it was never assigned. -/
def Attr.get {α : Type} : Attr α → Except PyErr α
  | .unset => .error .attributeError
  | .set a => .ok a

/- ----------------------------------------------------------------- -/
/- generator.py : SCNet layer construction (LinearBlock / ResBlock)  -/
/- ----------------------------------------------------------------- -/

/-- One entry of the sequential layer list built in `SCNet.__init__`
(src/sleuth/model/generator.py).  `linear` records a `LinearBlock` with its
`norm`, `act`, `dropout` flags; `res` records the `nn.Sequential` of
`n_Res` `ResBlock`s at a given width; `relu` is the trailing `nn.ReLU()`
of the decoder. -/
inductive LayerSpec where
  | linear (inDim outDim : ℕ) (norm act dropout : Bool)
  | res (dim nRes : ℕ)
  | relu
deriving DecidableEq, Repr

/-- The encoder loop of `SCNet.__init__`: successive `LinearBlock(dim_1, dim_2)`
with default flags (`norm=act=dropout=True`). -/
def mkEnc : ℕ → List ℕ → List LayerSpec
  | _, [] => []
  | d1, d2 :: rest => LayerSpec.linear d1 d2 true true true :: mkEnc d2 rest

/-- Encoder layer list of `SCNet.__init__`: the LinearBlock chain followed by
the Sequential of `n_Res` ResBlocks at the leaked loop width `dim_2`
(the last hidden size). -/
def encoderSpec (inDim : ℕ) (hidden : List ℕ) (nRes : ℕ) : List LayerSpec :=
  mkEnc inDim hidden ++ [LayerSpec.res (hidden.getLastD inDim) nRes]

/-- The decoder loop of `SCNet.__init__`: for each `dim_2` of the reversed
dimension list, a `LinearBlock(dim_1, dim_2)`; the block whose `dim_2`
equals `layers[-1]` (the input dimension) is built with
`norm=act=dropout=False`. -/
def mkDec : ℕ → List ℕ → ℕ → List LayerSpec
  | _, [], _ => []
  | d1, d2 :: rest, last =>
      (if d2 = last then LayerSpec.linear d1 d2 false false false
       else LayerSpec.linear d1 d2 true true true) :: mkDec d2 rest last

/-- Decoder layer list of `SCNet.__init__`: `layers = ([in_dim]+hidden)[::-1]`,
then the ResBlock Sequential at `layers[0]`, the LinearBlock chain over
`layers[1:]` (final block flag-free), and a trailing `nn.ReLU()`. -/
def decoderSpec (inDim : ℕ) (hidden : List ℕ) (nRes : ℕ) : List LayerSpec :=
  let rlayers := (inDim :: hidden).reverse
  LayerSpec.res (rlayers.headD 0) nRes ::
    (mkDec (rlayers.headD 0) rlayers.tail (rlayers.getLastD 0) ++ [LayerSpec.relu])

/-- Which layer entries are `LinearBlock`s. -/
def LayerSpec.isLinear : LayerSpec → Bool
  | .linear _ _ _ _ _ => true
  | _ => false

/-- `max x 0` applied componentwise: the semantics of the decoder's trailing
`nn.ReLU()`. -/
def reluVec (v : Vec) : Vec := v.map (fun a => max a 0)

/-- Run a layer list on a vector.  Layers with weights (`linear`, `res`) are
interpreted by the position-indexed oracle `interp` (their parameter values
are outside the modelled fragment); `relu` is parameter-free and is given
its real semantics. -/
def runSpec (interp : ℕ → LayerSpec → Vec → Vec) : ℕ → List LayerSpec → Vec → Vec
  | _, [], v => v
  | i, LayerSpec.relu :: rest, v => runSpec interp (i + 1) rest (reluVec v)
  | i, LayerSpec.linear a b n ac dr :: rest, v =>
      runSpec interp (i + 1) rest (interp i (LayerSpec.linear a b n ac dr) v)
  | i, LayerSpec.res d k :: rest, v =>
      runSpec interp (i + 1) rest (interp i (LayerSpec.res d k) v)

/- ----------------------------------------------------------------- -/
/- generator.py : GeneratorAD                                        -/
/- ----------------------------------------------------------------- -/

/-- The three sub-networks composed by `GeneratorAD`
(src/sleuth/model/generator.py).  `Enc` and `Dec` are the `SCNet`
encoder/decoder stacks; `Mem` is the memory read.
`Mem` is modelled from the spec: `MemoryBlock` lives in
`src/sleuth/model/_block.py`, which is not under src/; per spec section 4.2 it
is a map on latent vectors (attention-weighted combination of slots). -/
structure GenFuns where
  Enc : Mat → Mat
  Dec : Mat → Mat
  Mem : Mat → Mat

/-- `GeneratorAD.forward`: `z = Encoder(x); x = Decoder(Memory(z)); return x, z`. -/
def GenFuns.forward (g : GenFuns) (x : Mat) : Mat × Mat :=
  let z := g.Enc x
  (g.Dec (g.Mem z), z)

/-- `GeneratorAD.prepare`: `z = Encoder(x); x = Decoder(z); return x, z`. -/
def GenFuns.prepare (g : GenFuns) (x : Mat) : Mat × Mat :=
  let z := g.Enc x
  (g.Dec z, z)

/- ----------------------------------------------------------------- -/
/- Python value level: what the generator actually returns            -/
/- ----------------------------------------------------------------- -/

/-- A Python value flowing through `main.py`: a tensor, or a tuple (such as
the pair `return x, z` of `GeneratorAD.forward` / `GeneratorAD.prepare`). -/
inductive Val where
  | tensor (m : Mat)
  | tup (a b : Val)
deriving DecidableEq, Repr

/-- `GeneratorAD.forward` at the Python value level: it returns the tuple
`(reconstruction, latent)`. -/
def forwardVal (g : GenFuns) (x : Mat) : Val :=
  Val.tup (Val.tensor (g.forward x).1) (Val.tensor (g.forward x).2)

/-- `GeneratorAD.prepare` at the Python value level: it returns the tuple
`(reconstruction, latent)`. -/
def prepareVal (g : GenFuns) (x : Mat) : Val :=
  Val.tup (Val.tensor (g.prepare x).1) (Val.tensor (g.prepare x).2)

/-- `.detach()`: defined on tensors; a tuple has no such attribute, so the
call raises `AttributeError`. -/
def detachVal : Val → Except PyErr Val
  | .tensor m => .ok (.tensor m)
  | .tup _ _ => .error .attributeError

/-- Modelled from the spec: the Discriminator (`src/sleuth/model`, not under
src/) consumes a sample tensor (spec section 4.4, `score(x)`); applying it, or
`nn.L1Loss`, to a non-tensor value fails with a `TypeError`. -/
def asTensor : Val → Except PyErr Mat
  | .tensor m => .ok m
  | .tup _ _ => .error .typeError

/- ----------------------------------------------------------------- -/
/- main.py : loss arithmetic (lines 154-179)                         -/
/- ----------------------------------------------------------------- -/

/-- `torch.mean` of a vector of per-sample scores. -/
def mean (v : Vec) : ℚ := v.sum / v.length

/-- `nn.L1Loss()` with its default mean reduction: the mean of the absolute
componentwise differences over all entries. -/
def l1loss (x y : Mat) : ℚ :=
  mean (List.flatten (List.zipWith (fun r s => List.zipWith (fun a b => |a - b|) r s) x y))

/-- The loss-weight dictionary built when `weight is None`
(main.py line 39): `{'w_rec': 50, 'w_adv': 1, 'w_gp': 10}`. -/
structure Weights where
  w_rec : ℚ
  w_adv : ℚ
  w_gp : ℚ
deriving DecidableEq, Repr

/-- Default weights of `CoarseSleuth.__init__`. -/
def defaultWeight : Weights := ⟨50, 1, 10⟩

/-- The arithmetic of `CoarseSleuth._update_D` (main.py lines 158-162) on the
operand tensors: `d1 = mean(D(data))`, `d2 = mean(D(fake))`,
`gp = D.gradient_penalty(data, fake)`,
`D_loss = - d1 + d2 + gp * w_gp`.  `Dnet` maps a batch to its per-sample
critic scores and `gpf` is the gradient-penalty functional; both live in the
Discriminator (outside src/) and are abstracted as parameters. -/
def updateDLoss (Dnet : Mat → Vec) (gpf : Mat → Mat → ℚ) (wgp : ℚ)
    (data fake : Mat) : ℚ :=
  let d1 := mean (Dnet data)
  let d2 := mean (Dnet fake)
  let gp := gpf data fake
  let dl := - d1 + d2 + gp * wgp
  dl

/-- The arithmetic of `CoarseSleuth._update_G` (main.py lines 172-176) on the
operand tensors: `d = D(fake)`, `L_rec = L1(data, fake)`,
`L_adv = -mean(d)`, `G_loss = w_rec*L_rec + w_adv*L_adv`. -/
def updateGLoss (Dnet : Mat → Vec) (wrec wadv : ℚ) (data fake : Mat) : ℚ :=
  let d := Dnet fake
  let lrec := l1loss data fake
  let ladv := - mean d
  wrec * lrec + wadv * ladv

/-- `CoarseSleuth._update_D` with the Python value flow (main.py lines
154-165): `fake_data = self.G.prepare(data) if prepare else self.G(data)` is
the tuple returned by the generator; the update then calls
`fake_data.detach()` and feeds the result to the Discriminator.  Returns the
computed `D_loss`. -/
def updateDval (g : GenFuns) (Dnet : Mat → Vec) (gpf : Mat → Mat → ℚ)
    (wgp : ℚ) (data : Mat) (prepare : Bool) : Except PyErr ℚ := do
  let fake := if prepare then prepareVal g data else forwardVal g data
  let fd ← detachVal fake
  let ft ← asTensor fd
  pure (updateDLoss Dnet gpf wgp data ft)

/-- `CoarseSleuth._update_G` with the Python value flow (main.py lines
167-179): `fake_data` is the generator's tuple; `self.D(fake_data)` and
`self.L1(data, fake_data)` need a tensor.  Returns the computed `G_loss`. -/
def updateGval (g : GenFuns) (Dnet : Mat → Vec) (wrec wadv : ℚ)
    (data : Mat) (prepare : Bool) : Except PyErr ℚ := do
  let fake := if prepare then prepareVal g data else forwardVal g data
  let ft ← asTensor fake
  pure (updateGLoss Dnet wrec wadv data ft)

/- ----------------------------------------------------------------- -/
/- main.py : shape of one training epoch (lines 70-76, 145-152)      -/
/- ----------------------------------------------------------------- -/

/-- An optimizer-step event, tagged with the batch it consumed. -/
inductive Event where
  | updD (b : ℕ)
  | updG (b : ℕ)
deriving DecidableEq, Repr

/-- One call of `CoarseSleuth._train` (main.py lines 145-152): it iterates
over the whole `self.loader` and, for each batch, performs `n_critic`
Discriminator updates followed by one Generator update. -/
def trainPassEvents (batches : List ℕ) (nCritic : ℕ) : List Event :=
  batches.flatMap (fun b => List.replicate nCritic (Event.updD b) ++ [Event.updG b])

/-- One epoch of `CoarseSleuth.detector` (main.py lines 74-76): the epoch
body iterates over `self.loader` and calls `self._train(prepare=False)` once
per batch of that outer iteration — and `_train` itself iterates over the
whole loader again (the outer batch is moved to the device and dropped). -/
def epochEvents (batches : List ℕ) (nCritic : ℕ) : List Event :=
  batches.flatMap (fun _outer => trainPassEvents batches nCritic)

/- ----------------------------------------------------------------- -/
/- main.py : learning-rate schedulers (lines 57-62, 79-80)           -/
/- ----------------------------------------------------------------- -/

/-- The two Adam optimizers created by `CoarseSleuth.detector`. -/
inductive OptRef where
  | optD
  | optG
deriving DecidableEq, Repr

/-- A `CosineAnnealingLR` handle: the optimizer it was constructed over. -/
structure Sched where
  attached : OptRef
deriving DecidableEq, Repr

/-- `self.sch_D = CosineAnnealingLR(optimizer = self.opt_D, T_max = n_epochs)`
(main.py lines 59-60). -/
def schD : Sched := ⟨OptRef.optD⟩

/-- `self.sch_G = CosineAnnealingLR(optimizer = self.opt_D, T_max = n_epochs)`
(main.py lines 61-62): the source constructs the generator's scheduler over
`self.opt_D`, not `self.opt_G`. -/
def schG : Sched := ⟨OptRef.optD⟩

/-- `scheduler.step()`: rewrites the learning rate of the optimizer the
scheduler is attached to, leaving every other optimizer untouched.  `anneal`
is the library's cosine-annealing update rule (epoch counter and current
learning rate to new learning rate); its exact closed form is irrelevant to
which optimizer gets annealed, so it is a parameter. -/
def schedStep (anneal : ℕ → ℚ → ℚ) (t : ℕ) (s : Sched)
    (lrs : OptRef → ℚ) : OptRef → ℚ :=
  fun o => if o = s.attached then anneal t (lrs s.attached) else lrs o

/-- Learning rates after `e` epochs of `CoarseSleuth.detector`'s main loop:
both optimizers start at `lr0`, and at the end of each epoch the code runs
`self.sch_D.step()` then `self.sch_G.step()` (main.py lines 79-80). -/
def lrsAfter (anneal : ℕ → ℚ → ℚ) (lr0 : ℚ) : ℕ → OptRef → ℚ
  | 0 => fun _ => lr0
  | e + 1 => schedStep anneal (e + 1) schG (schedStep anneal (e + 1) schD (lrsAfter anneal lr0 e))

/- ----------------------------------------------------------------- -/
/- main.py : CoarseSleuth state, _check, detector, predictor          -/
/- ----------------------------------------------------------------- -/

/-- The slice of an `anndata.AnnData` object the orchestrator reads: the
numeric matrix `X` and the gene-name index `var_names` (gene names as
naturals). -/
structure AnnData where
  X : Mat
  varNames : List ℕ
deriving DecidableEq, Repr

/-- The instance attributes of `CoarseSleuth` that `_check`, `detector` and
`predictor` interact with.  `G` and `D` hold `Option Unit` so that the
source's `self.G is None` test is expressible; the code only ever assigns
real model objects (`set (some ())`).  `lossG`/`lossD` model `self.G_loss` /
`self.D_loss`, read by the progress display at the end of each epoch. -/
structure SleuthState where
  genes : Attr (List ℕ)
  G : Attr (Option Unit)
  D : Attr (Option Unit)
  lossG : Attr ℚ
  lossD : Attr ℚ
deriving DecidableEq, Repr

/-- A fresh `CoarseSleuth()` instance: no attribute of the detect/predict
life cycle has been assigned yet. -/
def initState : SleuthState :=
  ⟨Attr.unset, Attr.unset, Attr.unset, Attr.unset, Attr.unset⟩

/-- pandas `Index.__ne__` followed by `.any()` (main.py line 182): comparing
indexes of different lengths raises a `ValueError`; at equal lengths the
elementwise comparison has a `True` entry iff the lists differ. -/
def indexNe (a b : List ℕ) : Except PyErr Bool :=
  if a.length ≠ b.length then .error .valueError else .ok (a != b)

/-- `CoarseSleuth._check` (main.py lines 181-186): first the gene comparison
(`self.genes` raises `AttributeError` when `detector` has not run, and the
pandas comparison itself can raise), then — only if the genes agree — the
`self.G is None or self.D is None` test with Python short-circuit
evaluation (`self.D` is only read when `self.G` is not `None`). -/
def check (st : SleuthState) (tgt : AnnData) : Except PyErr Unit :=
  match st.genes with
  | .unset => .error .attributeError
  | .set genes =>
    match indexNe tgt.varNames genes with
    | .error e => .error e
    | .ok true => .error .runtimeDiffGenes
    | .ok false =>
      match st.G with
      | .unset => .error .attributeError
      | .set gm =>
        if gm.isNone then .error .runtimeTrainFirst
        else
          match st.D with
          | .unset => .error .attributeError
          | .set dm => if dm.isNone then .error .runtimeTrainFirst else .ok ()

/-- The assignments at the head of `CoarseSleuth.detector` (main.py lines
49-55): `self.genes = ref.var_names`, and `self.D` / `self.G` are set to
freshly constructed model objects (never `None`). -/
def detectorSetup (st : SleuthState) (ref : AnnData) : SleuthState :=
  { st with genes := Attr.set ref.varNames,
            G := Attr.set (some ()),
            D := Attr.set (some ()) }

/-- `DataLoader(..., batch_size=bs, drop_last=True)`: the rows grouped into
full batches, any trailing partial batch dropped.  (The loader also shuffles
the batch order; every property proved below is insensitive to the order, so
the chunks are taken in row order.)  Structural fuel recursion on the row
count. -/
def chunkDropAux : ℕ → ℕ → List Vec → List Mat
  | _, _, [] => []
  | 0, _, _ => []
  | fuel + 1, bs, rows =>
      if rows.length < bs ∨ bs = 0 then []
      else rows.take bs :: chunkDropAux fuel bs (rows.drop bs)

/-- The batches `CoarseSleuth` iterates over for a given data matrix. -/
def chunkDrop (bs : ℕ) (rows : Mat) : List Mat :=
  chunkDropAux rows.length bs rows

/-- `DataLoader(..., batch_size=bs, drop_last=False)` (the predictor's
loader, main.py line 92): full batches, plus the trailing partial batch when
one remains. -/
def chunkAllAux : ℕ → ℕ → List Vec → List Mat
  | _, _, [] => []
  | 0, _, rows => [rows]
  | fuel + 1, bs, rows =>
      if rows.length ≤ bs ∨ bs = 0 then [rows]
      else rows.take bs :: chunkAllAux fuel bs (rows.drop bs)

/-- The batches of the predictor's loader. -/
def chunkAll (bs : ℕ) (rows : Mat) : List Mat :=
  chunkAllAux rows.length bs rows

/-- One `CoarseSleuth._train` call threading the `G_loss`/`D_loss`
attributes: for every batch of the loader, `n_critic` Discriminator updates
then one Generator update (main.py lines 145-152). -/
def trainPassSt (g : GenFuns) (Dnet : Mat → Vec) (gpf : Mat → Mat → ℚ)
    (w : Weights) (batches : List Mat) (nCritic : ℕ) (prepare : Bool)
    (st : SleuthState) : Except PyErr SleuthState :=
  batches.foldlM (fun s b => do
    let s1 ← (List.range nCritic).foldlM (fun s2 _ => do
      let l ← updateDval g Dnet gpf w.w_gp b prepare
      pure { s2 with lossD := Attr.set l }) s
    let lg ← updateGval g Dnet w.w_rec w.w_adv b prepare
    pure { s1 with lossG := Attr.set lg }) st

/-- One epoch body of `_prepare` or of `detector`'s main loop: the loop
`for data in self.loader: self._train(...)` (the outer batch itself is
unused by `_train`), followed by the progress display reading
`self.G_loss.item()` and `self.D_loss.item()`. -/
def epochSt (g : GenFuns) (Dnet : Mat → Vec) (gpf : Mat → Mat → ℚ)
    (w : Weights) (batches : List Mat) (nCritic : ℕ) (prepare : Bool)
    (st : SleuthState) : Except PyErr SleuthState := do
  let s ← batches.foldlM
    (fun s _outer => trainPassSt g Dnet gpf w batches nCritic prepare s) st
  let _ ← s.lossG.get
  let _ ← s.lossD.get
  pure s

/-- `CoarseSleuth.detector` (main.py lines 46-85): attribute setup, then
`prepare_epochs` epochs of `_prepare` (prepare-mode training), then
`n_epochs` epochs of the adversarial loop.  The scheduler steps at the end
of each epoch never raise and do not touch these attributes, so they are
modelled separately (`lrsAfter`). -/
def detectorRun (g : GenFuns) (Dnet : Mat → Vec) (gpf : Mat → Mat → ℚ)
    (w : Weights) (st : SleuthState) (ref : AnnData)
    (prepareEpochs nEpochs nCritic bs : ℕ) : Except PyErr SleuthState := do
  let st2 ← (List.range prepareEpochs).foldlM
    (fun s _ => epochSt g Dnet gpf w (chunkDrop bs ref.X) nCritic true s)
    (detectorSetup st ref)
  let st3 ← (List.range nEpochs).foldlM
    (fun s _ => epochSt g Dnet gpf w (chunkDrop bs ref.X) nCritic false s) st2
  pure st3

/- ----------------------------------------------------------------- -/
/- main.py : predictor scoring loop and Predictor phase              -/
/- ----------------------------------------------------------------- -/

/-- Modelled from the spec: the seeded pseudo-random stream (spec section 9:
the seed is applied to each owned random-number stream, weight
initialisation included).  `pos` is the current position in the stream; a
draw returns the stream value there and advances the position. -/
structure RngState where
  pos : ℕ
deriving DecidableEq, Repr

/-- Modelled from the spec: the value of the seeded stream at a position
(distinct positions give the distinct draws a PRNG produces). -/
def streamAt (n : ℕ) : ℚ := n

/-- One draw from the seeded stream. -/
def drawQ (r : RngState) : ℚ × RngState := (streamAt r.pos, ⟨r.pos + 1⟩)

/-- Modelled from the spec: one Predictor training step on the frozen score
pairs (spec section 4.5: iterative binary-classification-style training on
the fixed pair of score vectors, deterministic given its inputs).  The
scalar parameter moves toward the mean real-fake score gap. -/
def trainStepP (w : ℚ) (sc : List (ℚ × ℚ)) : ℚ :=
  (w + mean (sc.map (fun p => p.1 - p.2))) / 2

/-- `predict_epochs` Predictor training steps. -/
def trainP (w : ℚ) (sc : List (ℚ × ℚ)) : ℕ → ℚ
  | 0 => w
  | e + 1 => trainP (trainStepP w sc) sc e

/-- Modelled from the spec: the trained Predictor evaluated on one
real/fake score pair (spec section 4.5: maps a score pair to an anomaly
score through the learned decision boundary). -/
def evalP (w : ℚ) (p : ℚ × ℚ) : ℚ := (p.1 - p.2) - w

/-- Modelled from the spec: the Predictor phase of `CoarseSleuth.predictor`
(main.py lines 109-128; the `Predictor` class itself is not under src/).
`self.P = Predictor(...)` draws the fresh model's randomly initialised
parameter from the seeded stream, the training loop runs `predict_epochs`
deterministic steps on the frozen score pairs, and the trained model is
evaluated once on the same pairs. -/
def predictModel (sc : List (ℚ × ℚ)) (predictEpochs : ℕ) (r : RngState) :
    List ℚ × RngState :=
  let (w0, r1) := drawQ r
  let w := trainP w0 sc predictEpochs
  (sc.map (evalP w), r1)

/-- The scoring loop of `CoarseSleuth.predictor` (main.py lines 99-105):
per batch, `fake_data = self.G(data)` (the generator's tuple), then
`self.D(data)` and `self.D(fake_data)`.  Returns the concatenated real and
fake score lists together with the number of batches scored to completion. -/
def scoreLoop (g : GenFuns) (Dnet : Mat → Vec) :
    List Mat → ℕ → Except PyErr (Vec × Vec) × ℕ
  | [], k => (.ok ([], []), k)
  | b :: rest, k =>
      let fake := forwardVal g b
      let rd := Dnet b
      match asTensor fake with
      | .error e => (.error e, k)
      | .ok ft =>
          let fd := Dnet ft
          match scoreLoop g Dnet rest (k + 1) with
          | (.ok (rs, fs), kk) => (.ok (rd ++ rs, fd ++ fs), kk)
          | err => err

/-- `CoarseSleuth.predictor` (main.py lines 87-130) with an explicit count of
batches scored: `self._check(tgt)` runs first; only then the loader is
built, the scoring loop runs, `torch.cat` concatenates the collected scores
(raising on an empty collection), and the Predictor phase produces the
returned vector. -/
def predictorTrace (g : GenFuns) (Dnet : Mat → Vec) (st : SleuthState)
    (tgt : AnnData) (bs predictEpochs : ℕ) (r : RngState) :
    Except PyErr (List ℚ) × ℕ :=
  match check st tgt with
  | .error e => (.error e, 0)
  | .ok _ =>
      let batches := chunkAll bs tgt.X
      match scoreLoop g Dnet batches 0 with
      | (.error e, k) => (.error e, k)
      | (.ok (rs, fs), k) =>
          if rs = [] then (.error .runtimeCatEmpty, k)
          else ((Except.ok (predictModel (rs.zip fs) predictEpochs r).1 :
                  Except PyErr (List ℚ)), k)

/- ----------------------------------------------------------------- -/
/- Concrete instances used to evaluate the embedding                  -/
/- ----------------------------------------------------------------- -/

/-- The last `LinearBlock` of a layer list. -/
def lastLinear (specs : List LayerSpec) : Option LayerSpec :=
  (specs.filter (fun s => s.isLinear)).getLast?

/-- Every component of a vector is non-negative. -/
def nonnegV (v : Vec) : Prop := ∀ a ∈ v, 0 ≤ a

instance (v : Vec) : Decidable (nonnegV v) := by
  unfold nonnegV
  infer_instance

/-- Concrete generator sub-networks (identity maps) for evaluating the
control-flow embedding; the claims proved with them hold for every choice. -/
def gf0 : GenFuns := ⟨fun m => m, fun m => m, fun m => m⟩

/-- A generator agreeing with `gf0` on encoder and decoder but with a
different memory map. -/
def gfMem : GenFuns := ⟨fun m => m, fun m => m, fun m => m.map reluVec⟩

/-- A concrete critic: score 0 for every sample. -/
def Dnet0 : Mat → Vec := fun m => m.map (fun _ => 0)

/-- A concrete gradient-penalty functional. -/
def gpf0 : Mat → Mat → ℚ := fun _ _ => 0

/-- A one-sample, one-gene reference dataset. -/
def ref1 : AnnData := ⟨[[0]], [5]⟩

/-- A target dataset with a different gene vector than `ref1`. -/
def tgtBad : AnnData := ⟨[[0]], [7]⟩

/-- A two-gene target whose gene vector permutes `[5, 7]`. -/
def tgtPerm : AnnData := ⟨[[0, 0]], [7, 5]⟩

/-- A state whose genes were recorded as `[5, 7]` by a previous `detector`
call. -/
def stGenes : SleuthState :=
  ⟨Attr.set [5, 7], Attr.set (some ()), Attr.set (some ()), Attr.unset, Attr.unset⟩

/-- Score pairs used to evaluate the Predictor phase. -/
def sc9 : List (ℚ × ℚ) := [(3, 1)]

/- ----------------------------------------------------------------- -/
/- Helper lemmas                                                     -/
/- ----------------------------------------------------------------- -/

theorem trainPassEvents_length (batches : List ℕ) (n : ℕ) :
    (trainPassEvents batches n).length = batches.length * (n + 1) := by
  induction batches with
  | nil => simp [trainPassEvents]
  | cons b t ih =>
      simp only [trainPassEvents, List.flatMap_cons, List.length_append,
        List.length_replicate, List.length_cons, List.length_nil] at ih ⊢
      rw [ih]
      ring

theorem flatMap_const_length {α β : Type} (l : List α) (c : List β) :
    (l.flatMap (fun _ => c)).length = l.length * c.length := by
  induction l with
  | nil => simp
  | cons a t ih => simp [List.flatMap_cons, ih]; ring

/- ----------------------------------------------------------------- -/
/- Claim theorems                                                    -/
/- ----------------------------------------------------------------- -/

/-- C1: the claim says `detect` then `predict` on the same gene set never
raises — in particular that the discriminator update that detaches the
generator output, and the scoring loop that feeds the generator output to
the discriminator, succeed on the values the generator actually returns.
The code contradicts this: `GeneratorAD.prepare`/`forward` return the tuple
`(reconstruction, latent)`, so `_update_D`'s `fake_data.detach()` raises
`AttributeError` on every batch (first conjunct, for every network and
batch), `detector` therefore raises on its first prepare-phase batch
(second conjunct), and the scoring loop of `predictor` raises a `TypeError`
when it feeds the tuple to the Discriminator even when the gene check
passes (third conjunct). -/
theorem claim_C1_detect_predict_raises :
    (∀ (g : GenFuns) (Dnet : Mat → Vec) (gpf : Mat → Mat → ℚ) (wgp : ℚ)
       (data : Mat) (prepare : Bool),
        updateDval g Dnet gpf wgp data prepare = .error .attributeError)
    ∧ detectorRun gf0 Dnet0 gpf0 defaultWeight initState ref1 1 1 1 1 =
        .error .attributeError
    ∧ predictorTrace gf0 Dnet0 (detectorSetup initState ref1) ref1 1 1 ⟨0⟩ =
        (.error .typeError, 0) := by
  refine ⟨?_, ?_, ?_⟩
  · intro g Dnet gpf wgp data prepare
    cases prepare <;> rfl
  · rfl
  · rfl

/-- C2: the claim says each training epoch performs exactly one
`n_critic`-plus-one update group per batch, with no batch processed more
than once per epoch.  The code contradicts this: `detector`'s epoch body
calls `_train` once per batch of the loader, and `_train` itself iterates
over the whole loader, so an epoch over `B` batches performs `B * B` update
groups and touches every batch `B` times.  With two batches and
`n_critic = 1`, batch `0` receives two generator updates in one epoch
(second and third conjuncts); the first conjunct is the general count. -/
theorem claim_C2_epoch_batch_count :
    (∀ (batches : List ℕ) (nCritic : ℕ),
        (epochEvents batches nCritic).length =
          batches.length * (batches.length * (nCritic + 1)))
    ∧ epochEvents [0, 1] 1 =
        [Event.updD 0, Event.updG 0, Event.updD 1, Event.updG 1,
         Event.updD 0, Event.updG 0, Event.updD 1, Event.updG 1]
    ∧ (epochEvents [0, 1] 1).count (Event.updG 0) = 2 := by
  refine ⟨?_, by decide, by decide⟩
  intro batches n
  unfold epochEvents
  rw [flatMap_const_length, trainPassEvents_length]

/-- C3: the claim says the cosine-annealing schedule steps once per epoch
for each of the two optimizers, so that both the Discriminator's and the
Generator's learning rates are annealed.  The code contradicts this:
`sch_G` is constructed over `self.opt_D` (main.py line 61), so after any
number of epochs the Generator optimizer's learning rate is unchanged
(second conjunct) while the Discriminator optimizer's rate receives both
scheduler steps each epoch (third conjunct). -/
theorem claim_C3_generator_lr_constant :
    schG.attached = OptRef.optD
    ∧ (∀ (anneal : ℕ → ℚ → ℚ) (lr0 : ℚ) (e : ℕ),
        lrsAfter anneal lr0 e OptRef.optG = lr0)
    ∧ (∀ (anneal : ℕ → ℚ → ℚ) (lr0 : ℚ) (e : ℕ),
        lrsAfter anneal lr0 (e + 1) OptRef.optD =
          anneal (e + 1) (anneal (e + 1) (lrsAfter anneal lr0 e OptRef.optD))) := by
  refine ⟨rfl, ?_, ?_⟩
  · intro anneal lr0 e
    induction e with
    | zero => rfl
    | succ n ih => simp [lrsAfter, schedStep, schG, schD, ih]
  · intro anneal lr0 e
    simp [lrsAfter, schedStep, schG, schD]

/-- C4: each Discriminator update minimizes the critic loss
`-mean(D(real)) + mean(D(fake)) + w_gp * gradient_penalty(real, fake)`
(main.py lines 158-162), and the configured default gradient-penalty weight
is 10 (main.py line 39). -/
theorem claim_C4_critic_loss_formula :
    (∀ (Dnet : Mat → Vec) (gpf : Mat → Mat → ℚ) (wgp : ℚ) (real fake : Mat),
        updateDLoss Dnet gpf wgp real fake =
          -(mean (Dnet real)) + mean (Dnet fake) + wgp * gpf real fake)
    ∧ defaultWeight.w_gp = 10 := by
  refine ⟨?_, rfl⟩
  intro Dnet gpf wgp real fake
  simp only [updateDLoss]
  ring

/-- C5: the single Generator update minimizes
`w_rec * L1(real, fake) + w_adv * (-mean(D(fake)))` (main.py lines
172-176), with configured default weights `w_rec = 50`, `w_adv = 1`
(main.py line 39). -/
theorem claim_C5_generator_loss_formula :
    (∀ (Dnet : Mat → Vec) (wrec wadv : ℚ) (real fake : Mat),
        updateGLoss Dnet wrec wadv real fake =
          wrec * l1loss real fake + wadv * (-(mean (Dnet fake))))
    ∧ defaultWeight.w_rec = 50 ∧ defaultWeight.w_adv = 1 := by
  exact ⟨fun _ _ _ _ _ => rfl, rfl, rfl⟩

theorem mkDec_cons_eq (d1 x : ℕ) (rest : List ℕ) (L : ℕ) :
    mkDec d1 (x :: rest) L =
      (if x = L then LayerSpec.linear d1 x false false false
       else LayerSpec.linear d1 x true true true) :: mkDec x rest L := rfl

theorem mkDec_getLast (rest : List ℕ) :
    ∀ (d1 L : ℕ), rest.getLast? = some L →
      ∃ p, (mkDec d1 rest L).getLast? = some (LayerSpec.linear p L false false false) := by
  induction rest with
  | nil => intro d1 L h; simp at h
  | cons x t ih =>
      intro d1 L h
      cases t with
      | nil =>
          simp only [List.getLast?_singleton, Option.some.injEq] at h
          subst h
          exact ⟨d1, by simp [mkDec]⟩
      | cons y tt =>
          rw [List.getLast?_cons_cons] at h
          obtain ⟨p, hp⟩ := ih x L h
          refine ⟨p, ?_⟩
          rw [mkDec_cons_eq d1 x (y :: tt) L]
          rw [mkDec_cons_eq x y tt L] at hp ⊢
          rw [List.getLast?_cons_cons]
          exact hp

theorem mkDec_all_linear (rest : List ℕ) :
    ∀ (d1 L : ℕ) (a : LayerSpec), a ∈ mkDec d1 rest L → a.isLinear = true := by
  induction rest with
  | nil => intro d1 L a ha; simp [mkDec] at ha
  | cons x t ih =>
      intro d1 L a ha
      rw [mkDec_cons_eq] at ha
      rcases List.mem_cons.mp ha with ha | ha
      · subst ha
        split <;> rfl
      · exact ih x L a ha

theorem mkDec_filter_linear (rest : List ℕ) (d1 L : ℕ) :
    (mkDec d1 rest L).filter (fun s => s.isLinear) = mkDec d1 rest L :=
  List.filter_eq_self.mpr (fun a ha => mkDec_all_linear rest d1 L a ha)

theorem runSpec_getLast_relu (specs : List LayerSpec) :
    ∀ (interp : ℕ → LayerSpec → Vec → Vec) (i : ℕ) (v : Vec),
      specs.getLast? = some LayerSpec.relu →
        nonnegV (runSpec interp i specs v) := by
  induction specs with
  | nil => intro interp i v h; simp at h
  | cons s rest ih =>
      intro interp i v h
      cases rest with
      | nil =>
          simp only [List.getLast?_singleton, Option.some.injEq] at h
          subst h
          intro a ha
          simp only [runSpec, reluVec, List.mem_map] at ha
          obtain ⟨b, _, hb⟩ := ha
          rw [← hb]
          exact le_max_right b 0
      | cons s2 rest2 =>
          rw [List.getLast?_cons_cons] at h
          cases s with
          | relu => exact ih interp (i + 1) (reluVec v) h
          | linear a b n ac dr => exact ih interp (i + 1) _ h
          | res d k => exact ih interp (i + 1) _ h

/-- C6: `GeneratorAD.prepare` computes Encoder then Decoder directly and
returns the reconstruction with the latent vector (first conjunct);
`GeneratorAD.forward` computes Encoder, then the Memory read on the latent,
then Decoder, and returns the reconstruction with the latent vector (second
conjunct); `prepare` bypasses the memory module: its result is unchanged by
replacing the memory map, as long as encoder and decoder agree (third
conjunct). -/
theorem claim_C6_forward_modes (g g2 : GenFuns) (x : Mat)
    (hE : g.Enc = g2.Enc) (hD : g.Dec = g2.Dec) :
    g.prepare x = (g.Dec (g.Enc x), g.Enc x)
    ∧ g.forward x = (g.Dec (g.Mem (g.Enc x)), g.Enc x)
    ∧ g.prepare x = g2.prepare x := by
  refine ⟨rfl, rfl, ?_⟩
  simp only [GenFuns.prepare, hE, hD]

theorem claim_C6_forward_modes_witness :
    gf0.prepare [[1, -2]] = (gf0.Dec (gf0.Enc [[1, -2]]), gf0.Enc [[1, -2]])
    ∧ gf0.forward [[1, -2]] = (gf0.Dec (gf0.Mem (gf0.Enc [[1, -2]])), gf0.Enc [[1, -2]])
    ∧ gf0.prepare [[1, -2]] = gfMem.prepare [[1, -2]] :=
  claim_C6_forward_modes gf0 gfMem [[1, -2]] rfl rfl

/-- C7: for every input dimension and (non-empty) hidden-dimension list, the
decoder's last `LinearBlock` maps back to the input dimension `D` with
`norm`, `act` and `dropout` all disabled (first conjunct), the decoder's
final layer is the `nn.ReLU()` rectification (second conjunct), and hence
every component of the decoder output is non-negative, for every choice of
layer parameters and input (third conjunct). -/
theorem claim_C7_decoder_final_block (inDim : ℕ) (hidden : List ℕ) (nRes : ℕ)
    (interp : ℕ → LayerSpec → Vec → Vec) (i : ℕ) (x : Vec) (h : hidden ≠ []) :
    (∃ p, lastLinear (decoderSpec inDim hidden nRes) =
        some (LayerSpec.linear p inDim false false false))
    ∧ (decoderSpec inDim hidden nRes).getLast? = some LayerSpec.relu
    ∧ nonnegV (runSpec interp i (decoderSpec inDim hidden nRes) x) := by
  obtain ⟨a, as, has⟩ : ∃ a as, hidden.reverse = a :: as := by
    cases hr : hidden.reverse with
    | nil => exact absurd (List.reverse_eq_nil_iff.mp hr) h
    | cons a as => exact ⟨a, as, rfl⟩
  have hr2 : (inDim :: hidden).reverse = a :: (as ++ [inDim]) := by
    rw [List.reverse_cons, has]
    rfl
  have hspec : decoderSpec inDim hidden nRes =
      LayerSpec.res a nRes :: (mkDec a (as ++ [inDim]) inDim ++ [LayerSpec.relu]) := by
    simp only [decoderSpec, hr2]
    have h3 : (a :: (as ++ [inDim])).getLastD 0 = inDim := by
      rw [List.getLastD_eq_getLast?]
      rw [show a :: (as ++ [inDim]) = (a :: as) ++ [inDim] from rfl]
      rw [List.getLast?_concat]
      rfl
    rw [h3]
    rfl
  have hlastrelu : (decoderSpec inDim hidden nRes).getLast? = some LayerSpec.relu := by
    rw [hspec]
    rw [show LayerSpec.res a nRes :: (mkDec a (as ++ [inDim]) inDim ++ [LayerSpec.relu]) =
      (LayerSpec.res a nRes :: mkDec a (as ++ [inDim]) inDim) ++ [LayerSpec.relu] from rfl]
    exact List.getLast?_concat _
  refine ⟨?_, hlastrelu, ?_⟩
  · have hlin : (as ++ [inDim]).getLast? = some inDim := List.getLast?_concat as
    obtain ⟨p, hp⟩ := mkDec_getLast (as ++ [inDim]) a inDim hlin
    refine ⟨p, ?_⟩
    unfold lastLinear
    rw [hspec]
    have hfil : (LayerSpec.res a nRes ::
        (mkDec a (as ++ [inDim]) inDim ++ [LayerSpec.relu])).filter
          (fun s => s.isLinear) = mkDec a (as ++ [inDim]) inDim := by
      rw [List.filter_cons]
      rw [if_neg (by simp [LayerSpec.isLinear])]
      rw [List.filter_append, mkDec_filter_linear]
      simp [LayerSpec.isLinear]
    rw [hfil]
    exact hp
  · exact runSpec_getLast_relu (decoderSpec inDim hidden nRes) interp i x hlastrelu

theorem claim_C7_decoder_final_block_witness :
    (∃ p, lastLinear (decoderSpec 3 [2] 1) =
        some (LayerSpec.linear p 3 false false false))
    ∧ (decoderSpec 3 [2] 1).getLast? = some LayerSpec.relu
    ∧ nonnegV (runSpec (fun _ _ v => v) 0 (decoderSpec 3 [2] 1) [-1, 5]) :=
  claim_C7_decoder_final_block 3 [2] 1 (fun _ _ v => v) 0 [-1, 5] (by decide)

theorem indexNe_len_ne {a b : List ℕ} (h : a.length ≠ b.length) :
    indexNe a b = .error .valueError := by
  unfold indexNe
  rw [if_pos h]

theorem indexNe_len_eq {a b : List ℕ} (h : a.length = b.length) :
    indexNe a b = .ok (a != b) := by
  unfold indexNe
  rw [if_neg (by simp [h])]

theorem check_genes_unset (st : SleuthState) (tgt : AnnData)
    (h : st.genes = Attr.unset) : check st tgt = .error .attributeError := by
  unfold check
  rw [h]

theorem check_genes_mismatch (st : SleuthState) (tgt : AnnData) (genes : List ℕ)
    (h : st.genes = Attr.set genes) (hne : genes ≠ tgt.varNames) :
    check st tgt = .error .valueError ∨ check st tgt = .error .runtimeDiffGenes := by
  unfold check
  simp only [h]
  by_cases hlen : tgt.varNames.length = genes.length
  · right
    rw [indexNe_len_eq hlen]
    rw [bne_iff_ne.mpr (fun hsym => hne hsym.symm)]
  · left
    rw [indexNe_len_ne hlen]

theorem predictorTrace_of_check_error (g : GenFuns) (Dnet : Mat → Vec)
    (st : SleuthState) (tgt : AnnData) (bs pe : ℕ) (r : RngState) (e : PyErr)
    (h : check st tgt = .error e) :
    predictorTrace g Dnet st tgt bs pe r = (.error e, 0) := by
  unfold predictorTrace
  rw [h]

/-- C8: calling `predict` before training, or on a target whose gene vector
differs from (or permutes) the reference's, raises immediately: the result
is the `_check` error and zero batches have been scored (no scoring and no
Predictor training happened).  Before training the error is the
`AttributeError` from the missing `self.genes` (first conjunct); on a gene
mismatch it is the pandas `ValueError` (length mismatch) or the
`RuntimeError` for differing genes (second conjunct). -/
theorem claim_C8_check_precedes_scoring (g : GenFuns) (Dnet : Mat → Vec)
    (st : SleuthState) (tgt : AnnData) (bs pe : ℕ) (r : RngState) :
    (st.genes = Attr.unset →
      predictorTrace g Dnet st tgt bs pe r = (.error .attributeError, 0))
    ∧ ∀ genes, st.genes = Attr.set genes → genes ≠ tgt.varNames →
        ∃ e, predictorTrace g Dnet st tgt bs pe r = (.error e, 0) := by
  constructor
  · intro h
    exact predictorTrace_of_check_error g Dnet st tgt bs pe r _
      (check_genes_unset st tgt h)
  · intro genes h hne
    rcases check_genes_mismatch st tgt genes h hne with hc | hc
    · exact ⟨.valueError, predictorTrace_of_check_error g Dnet st tgt bs pe r _ hc⟩
    · exact ⟨.runtimeDiffGenes, predictorTrace_of_check_error g Dnet st tgt bs pe r _ hc⟩

theorem claim_C8_check_precedes_scoring_witness :
    predictorTrace gf0 Dnet0 initState tgtBad 1 1 ⟨0⟩ = (.error .attributeError, 0)
    ∧ ∃ e, predictorTrace gf0 Dnet0 stGenes tgtPerm 1 1 ⟨0⟩ = (.error e, 0) :=
  ⟨(claim_C8_check_precedes_scoring gf0 Dnet0 initState tgtBad 1 1 ⟨0⟩).1 rfl,
   (claim_C8_check_precedes_scoring gf0 Dnet0 stGenes tgtPerm 1 1 ⟨0⟩).2
     [5, 7] rfl (by decide)⟩

/-- C9 counterexample: the claim says calling `predict` twice in succession
with no seed change in between yields bit-for-bit identical score vectors.
It does not: `predictor` re-creates `self.P = Predictor(...)` on every call,
whose fresh parameters are drawn from the random stream at its current
position; the second call starts at the position the first call left behind,
so the two Predictor initialisations — and hence the returned scores —
differ on the concrete score pair `sc9`. -/
theorem claim_C9_not_idempotent :
    (predictModel sc9 1 ⟨0⟩).1 ≠
      (predictModel sc9 1 (predictModel sc9 1 ⟨0⟩).2).1 := by
  norm_num [predictModel, drawQ, trainP, trainStepP, evalP, sc9, streamAt, mean]

/-- C9 amended: two `predict` calls yield bit-for-bit identical score
vectors exactly when the Predictor's re-initialisation consumes the same
random draw — in particular when the seed is re-applied (the stream restored
to the same position) before each call.  Given equal draws, the whole
predict phase is deterministic. -/
theorem claim_C9_deterministic_given_draw (sc : List (ℚ × ℚ)) (pe : ℕ)
    (r r2 : RngState) (h : streamAt r.pos = streamAt r2.pos) :
    (predictModel sc pe r).1 = (predictModel sc pe r2).1 := by
  simp only [predictModel, drawQ, h]

theorem claim_C9_deterministic_given_draw_witness :
    streamAt (RngState.mk 0).pos = streamAt (RngState.mk 0).pos
    ∧ (predictModel sc9 1 ⟨0⟩).1 = (predictModel sc9 1 ⟨0⟩).1 :=
  ⟨rfl, claim_C9_deterministic_given_draw sc9 1 ⟨0⟩ ⟨0⟩ rfl⟩

theorem except_bind_ok {ε α β : Type} (a : α) (f : α → Except ε β) :
    ((Except.ok a : Except ε α) >>= f) = f a := rfl

theorem except_bind_error {ε α β : Type} (e : ε) (f : α → Except ε β) :
    ((Except.error e : Except ε α) >>= f) = Except.error e := rfl

theorem foldlM_except_inv {α σ : Type} (P : σ → Prop) (f : σ → α → Except PyErr σ)
    (hf : ∀ s a s2, P s → f s a = .ok s2 → P s2) :
    ∀ (l : List α) (s s2 : σ), P s → l.foldlM f s = .ok s2 → P s2 := by
  intro l
  induction l with
  | nil =>
      intro s s2 hP h
      rw [List.foldlM_nil] at h
      cases h
      exact hP
  | cons a t ih =>
      intro s s2 hP h
      rw [List.foldlM_cons] at h
      cases hfa : f s a with
      | error e =>
          rw [hfa] at h
          rw [except_bind_error] at h
          cases h
      | ok s1 =>
          rw [hfa] at h
          rw [except_bind_ok] at h
          exact ih s1 s2 (hf s a s1 hP hfa) h

/-- The per-batch body of `_train` leaves `genes`, `G` and `D` untouched:
only the loss attributes are reassigned. -/
theorem trainPassSt_inv (g : GenFuns) (Dnet : Mat → Vec) (gpf : Mat → Mat → ℚ)
    (w : Weights) (batches : List Mat) (nCritic : ℕ) (prep : Bool)
    (gv : Attr (List ℕ)) (s s2 : SleuthState)
    (hP : s.genes = gv ∧ s.G = Attr.set (some ()) ∧ s.D = Attr.set (some ()))
    (h : trainPassSt g Dnet gpf w batches nCritic prep s = .ok s2) :
    s2.genes = gv ∧ s2.G = Attr.set (some ()) ∧ s2.D = Attr.set (some ()) := by
  unfold trainPassSt at h
  refine foldlM_except_inv
    (fun s0 => s0.genes = gv ∧ s0.G = Attr.set (some ()) ∧ s0.D = Attr.set (some ()))
    _ ?_ batches s s2 hP h
  intro s0 b s3 hP0 hstep
  cases hin : (List.range nCritic).foldlM (fun s2 _ => do
      let l ← updateDval g Dnet gpf w.w_gp b prep
      pure { s2 with lossD := Attr.set l }) s0 with
  | error e =>
      rw [hin, except_bind_error] at hstep
      cases hstep
  | ok s1 =>
      rw [hin] at hstep
      simp only [except_bind_ok] at hstep
      have hP1 : s1.genes = gv ∧ s1.G = Attr.set (some ()) ∧ s1.D = Attr.set (some ()) := by
        refine foldlM_except_inv
          (fun s0 => s0.genes = gv ∧ s0.G = Attr.set (some ()) ∧ s0.D = Attr.set (some ()))
          _ ?_ (List.range nCritic) s0 s1 hP0 hin
        intro s4 a s5 hP4 hstep4
        cases hup : updateDval g Dnet gpf w.w_gp b prep with
        | error e =>
            rw [hup, except_bind_error] at hstep4
            cases hstep4
        | ok l =>
            rw [hup] at hstep4
            simp only [except_bind_ok] at hstep4
            cases hstep4
            exact ⟨hP4.1, hP4.2.1, hP4.2.2⟩
      cases hup : updateGval g Dnet w.w_rec w.w_adv b prep with
      | error e =>
          rw [hup, except_bind_error] at hstep
          cases hstep
      | ok lg =>
          rw [hup] at hstep
          simp only [except_bind_ok] at hstep
          cases hstep
          exact ⟨hP1.1, hP1.2.1, hP1.2.2⟩

/-- One epoch body leaves `genes`, `G` and `D` untouched. -/
theorem epochSt_inv (g : GenFuns) (Dnet : Mat → Vec) (gpf : Mat → Mat → ℚ)
    (w : Weights) (batches : List Mat) (nCritic : ℕ) (prep : Bool)
    (gv : Attr (List ℕ)) (s s2 : SleuthState)
    (hP : s.genes = gv ∧ s.G = Attr.set (some ()) ∧ s.D = Attr.set (some ()))
    (h : epochSt g Dnet gpf w batches nCritic prep s = .ok s2) :
    s2.genes = gv ∧ s2.G = Attr.set (some ()) ∧ s2.D = Attr.set (some ()) := by
  unfold epochSt at h
  cases hfold : batches.foldlM
      (fun s _outer => trainPassSt g Dnet gpf w batches nCritic prep s) s with
  | error e =>
      rw [hfold, except_bind_error] at h
      cases h
  | ok s1 =>
      rw [hfold] at h
      simp only [except_bind_ok] at h
      have hP1 : s1.genes = gv ∧ s1.G = Attr.set (some ()) ∧ s1.D = Attr.set (some ()) := by
        refine foldlM_except_inv
          (fun s0 => s0.genes = gv ∧ s0.G = Attr.set (some ()) ∧ s0.D = Attr.set (some ()))
          _ ?_ batches s s1 hP hfold
        intro s4 a s5 hP4 hstep4
        exact trainPassSt_inv g Dnet gpf w batches nCritic prep gv s4 s5 hP4 hstep4
      cases hlg : s1.lossG.get with
      | error e =>
          rw [hlg, except_bind_error] at h
          cases h
      | ok q =>
          rw [hlg] at h
          simp only [except_bind_ok] at h
          cases hld : s1.lossD.get with
          | error e =>
              rw [hld, except_bind_error] at h
              cases h
          | ok q2 =>
              rw [hld] at h
              simp only [except_bind_ok] at h
              cases h
              exact hP1

/-- Every state `detector` can return has real (non-`None`) `G` and `D`
models and the reference's gene vector recorded. -/
theorem detectorRun_inv (g : GenFuns) (Dnet : Mat → Vec) (gpf : Mat → Mat → ℚ)
    (w : Weights) (st : SleuthState) (ref : AnnData)
    (pe ne nc bs : ℕ) (st2 : SleuthState)
    (h : detectorRun g Dnet gpf w st ref pe ne nc bs = .ok st2) :
    st2.genes = Attr.set ref.varNames ∧ st2.G = Attr.set (some ())
      ∧ st2.D = Attr.set (some ()) := by
  unfold detectorRun at h
  have hP0 : (detectorSetup st ref).genes = Attr.set ref.varNames
      ∧ (detectorSetup st ref).G = Attr.set (some ())
      ∧ (detectorSetup st ref).D = Attr.set (some ()) := ⟨rfl, rfl, rfl⟩
  cases h1 : (List.range pe).foldlM
      (fun s _ => epochSt g Dnet gpf w (chunkDrop bs ref.X) nc true s)
      (detectorSetup st ref) with
  | error e =>
      rw [h1, except_bind_error] at h
      cases h
  | ok sA =>
      rw [h1] at h
      simp only [except_bind_ok] at h
      have hPA := foldlM_except_inv
        (fun s0 => s0.genes = Attr.set ref.varNames ∧ s0.G = Attr.set (some ())
          ∧ s0.D = Attr.set (some ()))
        _
        (fun s a s2 hP hstep =>
          epochSt_inv g Dnet gpf w (chunkDrop bs ref.X) nc true
            (Attr.set ref.varNames) s s2 hP hstep)
        (List.range pe) (detectorSetup st ref) sA hP0 h1
      cases h2 : (List.range ne).foldlM
          (fun s _ => epochSt g Dnet gpf w (chunkDrop bs ref.X) nc false s) sA with
      | error e =>
          rw [h2, except_bind_error] at h
          cases h
      | ok sB =>
          rw [h2] at h
          simp only [except_bind_ok] at h
          have hPB := foldlM_except_inv
            (fun s0 => s0.genes = Attr.set ref.varNames ∧ s0.G = Attr.set (some ())
              ∧ s0.D = Attr.set (some ()))
            _
            (fun s a s2 hP hstep =>
              epochSt_inv g Dnet gpf w (chunkDrop bs ref.X) nc false
                (Attr.set ref.varNames) s s2 hP hstep)
            (List.range ne) sA sB hPA h2
          cases h
          exact hPB

theorem indexNe_error_eq {a b : List ℕ} {e : PyErr}
    (h : indexNe a b = .error e) : e = .valueError := by
  unfold indexNe at h
  split at h
  · cases h
    rfl
  · cases h

/-- With real models assigned, `_check` can never reach the
`'Please train the model first.'` branch. -/
theorem check_ne_trainFirst (st : SleuthState) (tgt : AnnData)
    (hG : st.G = Attr.set (some ())) (hD : st.D = Attr.set (some ())) :
    check st tgt ≠ .error .runtimeTrainFirst := by
  unfold check
  rw [hG, hD]
  cases hgen : st.genes with
  | unset => simp
  | set genes =>
      cases hidx : indexNe tgt.varNames genes with
      | error e =>
          have he := indexNe_error_eq hidx
          subst he
          simp [hidx]
      | ok b => cases b <;> simp [hidx]

/-- C10: `detector` assigns real model objects to `self.G` and `self.D`
before training, so any state it returns has both attributes set to
non-`None` models and `_check` on that state can never take the
`'Please train the model first.'` branch; and when `predictor` runs before
`detector`, `_check` fails at the preceding gene comparison with the
`AttributeError` for the missing `self.genes`, so that branch is not
reached on that path either. -/
theorem claim_C10_trainfirst_branch_unreachable (g : GenFuns) (Dnet : Mat → Vec)
    (gpf : Mat → Mat → ℚ) (w : Weights) (st : SleuthState) (ref : AnnData)
    (pe ne nc bs : ℕ) (st2 : SleuthState) (tgt : AnnData)
    (h : detectorRun g Dnet gpf w st ref pe ne nc bs = .ok st2) :
    st2.G = Attr.set (some ()) ∧ st2.D = Attr.set (some ())
    ∧ check st2 tgt ≠ .error .runtimeTrainFirst
    ∧ check initState tgt = .error .attributeError
    ∧ check initState tgt ≠ .error .runtimeTrainFirst := by
  obtain ⟨hg, hG, hD⟩ := detectorRun_inv g Dnet gpf w st ref pe ne nc bs st2 h
  refine ⟨hG, hD, check_ne_trainFirst st2 tgt hG hD, ?_, ?_⟩
  · exact check_genes_unset initState tgt rfl
  · rw [check_genes_unset initState tgt rfl]
    simp

theorem claim_C10_trainfirst_branch_unreachable_witness :
    (detectorSetup initState ref1).G = Attr.set (some ())
    ∧ (detectorSetup initState ref1).D = Attr.set (some ())
    ∧ check (detectorSetup initState ref1) ref1 ≠ .error .runtimeTrainFirst
    ∧ check initState ref1 = .error .attributeError
    ∧ check initState ref1 ≠ .error .runtimeTrainFirst :=
  claim_C10_trainfirst_branch_unreachable gf0 Dnet0 gpf0 defaultWeight
    initState ref1 0 0 1 1 (detectorSetup initState ref1) ref1 rfl
